import Mathlib

/-!
Shallow embedding of the NBA Markov-simulation frontend (TypeScript):
the stream consumer `simulateSeasonsStream` and `healthCheck` from
`frontend/src/api/api.ts`, the chart transform from
`frontend/src/components/SimulationChart.tsx`, and the adjustment
pipeline (`adjustMetric`, `calculateVariables`) and type declarations
from the frontend sources.  JavaScript numbers are modelled as ℚ,
JavaScript objects with dynamic keys as association lists with
overwrite-on-assignment, and optional / possibly-absent JSON fields as
`Option`.
-/

/-- Embeds interface `GameData` from `types.ts`:
`{game, expected_wins, team_score, opp_score, is_win}`. -/
structure GameData where
  game : Int
  expected_wins : ℚ
  team_score : ℚ
  opp_score : ℚ
  is_win : Bool
deriving DecidableEq

/-- Embeds interface `SeasonData` from `types.ts`:
`{season, games, final_expected_wins, total_wins, win_percentage}`. -/
structure SeasonData where
  season : Int
  games : List GameData
  final_expected_wins : ℚ
  total_wins : ℚ
  win_percentage : ℚ
deriving DecidableEq

/-- Embeds interface `SimulationStatistics` from `types.ts`.  The
interface declares exactly these five numeric fields. -/
structure SimulationStatistics where
  average_expected_wins : ℚ
  standard_deviation : ℚ
  confidence_interval_95 : ℚ
  min_wins : ℚ
  max_wins : ℚ
deriving DecidableEq

/-- The list of field names declared by interface `SimulationStatistics`
in `types.ts`, transcribed in declaration order. -/
def simulationStatisticsFields : List String :=
  ["average_expected_wins", "standard_deviation", "confidence_interval_95",
   "min_wins", "max_wins"]

/-- The keys of the fallback statistics object literal built in
`App.handleSimulate`'s `onSeasonUpdate` callback
(`seasonData.running_statistics || {...}`), transcribed in order. -/
def fallbackStatisticsKeys : List String :=
  ["average_expected_wins", "standard_deviation", "confidence_interval_95",
   "min_wins", "max_wins", "seasons_completed"]

/-- The fields of the per-team metrics profile (`teamMetrics`) that
`calculateVariables` in `SimulationControls` reads, with the source's
field names. -/
structure TeamMetrics where
  fg2_pct : ℚ
  fg2a : ℚ
  fg2m : ℚ
  FG3_PCT : ℚ
  FG3A : ℚ
  FG3M : ℚ
  FT_PCT : ℚ
  FTA : ℚ
  FTM : ℚ
  TM_TOV_PCT : ℚ
  POSS : ℚ
  TOV : ℚ
  dreb_pct : ℚ
  DREB : ℚ
  OREB_PCT : ℚ
  OREB : ℚ
  opp_fg2_pct : ℚ
  opp_fg2a : ℚ
  opp_fg2m : ℚ
  OPP_FG3_PCT : ℚ
  OPP_FG3A : ℚ
  OPP_FG3M : ℚ
  OPP_FT_PCT : ℚ
  OPP_FTA : ℚ
  OPP_FTM : ℚ
  OPP_TOV_PCT : ℚ
  OPP_TOV : ℚ
  opp_dreb_pct : ℚ
  OPP_DREB : ℚ
  OPP_OREB_PCT : ℚ
  OPP_OREB : ℚ

/-- The twelve adjusted-metric fields held in the `adjustedMetrics`
state of `SimulationControls`. -/
structure AdjustedMetrics where
  fg2_pct : ℚ
  fg3_pct : ℚ
  ft_pct : ℚ
  oreb_pct : ℚ
  dreb_pct : ℚ
  tov_pct : ℚ
  opp_fg2_pct : ℚ
  opp_fg3_pct : ℚ
  opp_ft_pct : ℚ
  opp_oreb_pct : ℚ
  opp_dreb_pct : ℚ
  opp_tov_pct : ℚ

/-- Embeds the helper `getAdditional` of `calculateVariables`:
`if (Math.abs(adjustedValue - originalValue) < 0.0001) return 0;
return formula();`. -/
def getAdditional (adjustedValue originalValue : ℚ) (formula : Unit → ℚ) : ℚ :=
  if |adjustedValue - originalValue| < 1/10000 then 0 else formula ()

/-- The twelve `additional_*` / `opp_additional_*` variables returned by
`calculateVariables`. -/
structure CalculatedVariables where
  additional_shots_made_2 : ℚ
  additional_shots_made_3 : ℚ
  additional_shots_made_ft : ℚ
  additional_turnovers : ℚ
  additional_dreb : ℚ
  additional_oreb : ℚ
  opp_additional_shots_made_2 : ℚ
  opp_additional_shots_made_3 : ℚ
  opp_additional_shots_made_ft : ℚ
  opp_additional_turnovers : ℚ
  opp_additional_dreb : ℚ
  opp_additional_oreb : ℚ

/-- Embeds `calculateVariables` from `SimulationControls` (the case where
both `teamMetrics` and `adjustedMetrics` are available; otherwise the
source returns an empty object).  Each field applies `getAdditional` to
the adjusted value, the original value, and the source's formula. -/
def calculateVariables (original : TeamMetrics) (adjusted : AdjustedMetrics) :
    CalculatedVariables where
  additional_shots_made_2 :=
    getAdditional adjusted.fg2_pct original.fg2_pct
      (fun _ => adjusted.fg2_pct * original.fg2a - original.fg2m)
  additional_shots_made_3 :=
    getAdditional adjusted.fg3_pct original.FG3_PCT
      (fun _ => adjusted.fg3_pct * original.FG3A - original.FG3M)
  additional_shots_made_ft :=
    getAdditional adjusted.ft_pct original.FT_PCT
      (fun _ => adjusted.ft_pct * original.FTA - original.FTM)
  additional_turnovers :=
    getAdditional adjusted.tov_pct original.TM_TOV_PCT
      (fun _ => adjusted.tov_pct * original.POSS - original.TOV)
  additional_dreb :=
    getAdditional adjusted.dreb_pct original.dreb_pct
      (fun _ => (original.DREB / original.dreb_pct) * adjusted.dreb_pct - original.DREB)
  additional_oreb :=
    getAdditional adjusted.oreb_pct original.OREB_PCT
      (fun _ => (original.OREB / original.OREB_PCT) * adjusted.oreb_pct - original.OREB)
  opp_additional_shots_made_2 :=
    getAdditional adjusted.opp_fg2_pct original.opp_fg2_pct
      (fun _ => adjusted.opp_fg2_pct * original.opp_fg2a - original.opp_fg2m)
  opp_additional_shots_made_3 :=
    getAdditional adjusted.opp_fg3_pct original.OPP_FG3_PCT
      (fun _ => adjusted.opp_fg3_pct * original.OPP_FG3A - original.OPP_FG3M)
  opp_additional_shots_made_ft :=
    getAdditional adjusted.opp_ft_pct original.OPP_FT_PCT
      (fun _ => adjusted.opp_ft_pct * original.OPP_FTA - original.OPP_FTM)
  opp_additional_turnovers :=
    getAdditional adjusted.opp_tov_pct original.OPP_TOV_PCT
      (fun _ => adjusted.opp_tov_pct * original.POSS - original.OPP_TOV)
  opp_additional_dreb :=
    getAdditional adjusted.opp_dreb_pct original.opp_dreb_pct
      (fun _ => (original.OPP_DREB / original.opp_dreb_pct) * adjusted.opp_dreb_pct - original.OPP_DREB)
  opp_additional_oreb :=
    getAdditional adjusted.opp_oreb_pct original.OPP_OREB_PCT
      (fun _ => (original.OPP_OREB / original.OPP_OREB_PCT) * adjusted.opp_oreb_pct - original.OPP_OREB)

/-- A sample team metrics profile used to instantiate theorems with
hypotheses at concrete inputs. -/
def sampleMetrics : TeamMetrics where
  fg2_pct := 1/2
  fg2a := 100
  fg2m := 50
  FG3_PCT := 7/20
  FG3A := 40
  FG3M := 14
  FT_PCT := 4/5
  FTA := 25
  FTM := 20
  TM_TOV_PCT := 3/25
  POSS := 100
  TOV := 12
  dreb_pct := 7/10
  DREB := 35
  OREB_PCT := 3/10
  OREB := 10
  opp_fg2_pct := 13/25
  opp_fg2a := 90
  opp_fg2m := 45
  OPP_FG3_PCT := 9/25
  OPP_FG3A := 35
  OPP_FG3M := 12
  OPP_FT_PCT := 3/4
  OPP_FTA := 20
  OPP_FTM := 15
  OPP_TOV_PCT := 13/100
  OPP_TOV := 13
  opp_dreb_pct := 18/25
  OPP_DREB := 33
  OPP_OREB_PCT := 7/25
  OPP_OREB := 9

/-- A sample adjusted-metrics state: the free-throw percentage is left at
its baseline value while every other metric is moved by at least the
epsilon. -/
def sampleAdjusted : AdjustedMetrics where
  fg2_pct := 11/20
  fg3_pct := 2/5
  ft_pct := 4/5
  oreb_pct := 7/20
  dreb_pct := 3/4
  tov_pct := 1/10
  opp_fg2_pct := 1/2
  opp_fg3_pct := 1/3
  opp_ft_pct := 7/10
  opp_oreb_pct := 1/4
  opp_dreb_pct := 3/4
  opp_tov_pct := 3/20

/-- C1: for every metric, `calculateVariables` produces an additional
count of 0 exactly when the absolute difference between the adjusted and
baseline values is below the epsilon 1e-4, and otherwise produces the
metric's redistribution formula applied to the adjusted value; this holds
for each of the twelve `additional_*` / `opp_additional_*` variables. -/
theorem calculateVariables_epsilon_noop (o : TeamMetrics) (a : AdjustedMetrics) :
    ((|a.fg2_pct - o.fg2_pct| < 1/10000 →
        (calculateVariables o a).additional_shots_made_2 = 0) ∧
      (¬ |a.fg2_pct - o.fg2_pct| < 1/10000 →
        (calculateVariables o a).additional_shots_made_2 = a.fg2_pct * o.fg2a - o.fg2m)) ∧
    ((|a.fg3_pct - o.FG3_PCT| < 1/10000 →
        (calculateVariables o a).additional_shots_made_3 = 0) ∧
      (¬ |a.fg3_pct - o.FG3_PCT| < 1/10000 →
        (calculateVariables o a).additional_shots_made_3 = a.fg3_pct * o.FG3A - o.FG3M)) ∧
    ((|a.ft_pct - o.FT_PCT| < 1/10000 →
        (calculateVariables o a).additional_shots_made_ft = 0) ∧
      (¬ |a.ft_pct - o.FT_PCT| < 1/10000 →
        (calculateVariables o a).additional_shots_made_ft = a.ft_pct * o.FTA - o.FTM)) ∧
    ((|a.tov_pct - o.TM_TOV_PCT| < 1/10000 →
        (calculateVariables o a).additional_turnovers = 0) ∧
      (¬ |a.tov_pct - o.TM_TOV_PCT| < 1/10000 →
        (calculateVariables o a).additional_turnovers = a.tov_pct * o.POSS - o.TOV)) ∧
    ((|a.dreb_pct - o.dreb_pct| < 1/10000 →
        (calculateVariables o a).additional_dreb = 0) ∧
      (¬ |a.dreb_pct - o.dreb_pct| < 1/10000 →
        (calculateVariables o a).additional_dreb = (o.DREB / o.dreb_pct) * a.dreb_pct - o.DREB)) ∧
    ((|a.oreb_pct - o.OREB_PCT| < 1/10000 →
        (calculateVariables o a).additional_oreb = 0) ∧
      (¬ |a.oreb_pct - o.OREB_PCT| < 1/10000 →
        (calculateVariables o a).additional_oreb = (o.OREB / o.OREB_PCT) * a.oreb_pct - o.OREB)) ∧
    ((|a.opp_fg2_pct - o.opp_fg2_pct| < 1/10000 →
        (calculateVariables o a).opp_additional_shots_made_2 = 0) ∧
      (¬ |a.opp_fg2_pct - o.opp_fg2_pct| < 1/10000 →
        (calculateVariables o a).opp_additional_shots_made_2 = a.opp_fg2_pct * o.opp_fg2a - o.opp_fg2m)) ∧
    ((|a.opp_fg3_pct - o.OPP_FG3_PCT| < 1/10000 →
        (calculateVariables o a).opp_additional_shots_made_3 = 0) ∧
      (¬ |a.opp_fg3_pct - o.OPP_FG3_PCT| < 1/10000 →
        (calculateVariables o a).opp_additional_shots_made_3 = a.opp_fg3_pct * o.OPP_FG3A - o.OPP_FG3M)) ∧
    ((|a.opp_ft_pct - o.OPP_FT_PCT| < 1/10000 →
        (calculateVariables o a).opp_additional_shots_made_ft = 0) ∧
      (¬ |a.opp_ft_pct - o.OPP_FT_PCT| < 1/10000 →
        (calculateVariables o a).opp_additional_shots_made_ft = a.opp_ft_pct * o.OPP_FTA - o.OPP_FTM)) ∧
    ((|a.opp_tov_pct - o.OPP_TOV_PCT| < 1/10000 →
        (calculateVariables o a).opp_additional_turnovers = 0) ∧
      (¬ |a.opp_tov_pct - o.OPP_TOV_PCT| < 1/10000 →
        (calculateVariables o a).opp_additional_turnovers = a.opp_tov_pct * o.POSS - o.OPP_TOV)) ∧
    ((|a.opp_dreb_pct - o.opp_dreb_pct| < 1/10000 →
        (calculateVariables o a).opp_additional_dreb = 0) ∧
      (¬ |a.opp_dreb_pct - o.opp_dreb_pct| < 1/10000 →
        (calculateVariables o a).opp_additional_dreb = (o.OPP_DREB / o.opp_dreb_pct) * a.opp_dreb_pct - o.OPP_DREB)) ∧
    ((|a.opp_oreb_pct - o.OPP_OREB_PCT| < 1/10000 →
        (calculateVariables o a).opp_additional_oreb = 0) ∧
      (¬ |a.opp_oreb_pct - o.OPP_OREB_PCT| < 1/10000 →
        (calculateVariables o a).opp_additional_oreb = (o.OPP_OREB / o.OPP_OREB_PCT) * a.opp_oreb_pct - o.OPP_OREB)) := by
  have H : ∀ (x y : ℚ) (f : Unit → ℚ),
      (|x - y| < 1/10000 → getAdditional x y f = 0) ∧
      (¬ |x - y| < 1/10000 → getAdditional x y f = f ()) :=
    fun x y f => ⟨fun h => if_pos h, fun h => if_neg h⟩
  simp only [calculateVariables]
  exact ⟨H _ _ _, H _ _ _, H _ _ _, H _ _ _, H _ _ _, H _ _ _,
    H _ _ _, H _ _ _, H _ _ _, H _ _ _, H _ _ _, H _ _ _⟩

/-- Witness for C1 at the sample inputs: the free-throw metric is at
baseline, so its additional count is 0; the two-point metric differs by
at least the epsilon, so its additional count follows the formula. -/
theorem calculateVariables_epsilon_noop_witness :
    (calculateVariables sampleMetrics sampleAdjusted).additional_shots_made_ft = 0 ∧
    (calculateVariables sampleMetrics sampleAdjusted).additional_shots_made_2 =
      sampleAdjusted.fg2_pct * sampleMetrics.fg2a - sampleMetrics.fg2m := by
  refine ⟨((calculateVariables_epsilon_noop sampleMetrics sampleAdjusted).2.2.1).1 ?_,
    ((calculateVariables_epsilon_noop sampleMetrics sampleAdjusted).1).2 ?_⟩
  · norm_num [sampleMetrics, sampleAdjusted]
  · rw [not_lt, le_abs]
    norm_num [sampleMetrics, sampleAdjusted]

/-- C2: whenever an adjusted rebound percentage differs from its
baseline by at least the epsilon, the additional-rebound quantities
follow the ratio formula `(REB / REB_PCT) * new_PCT - REB`, for the
team's defensive and offensive rebounds and for the opponent's. -/
theorem additional_rebounds_ratio_formula (o : TeamMetrics) (a : AdjustedMetrics)
    (h1 : 1/10000 ≤ |a.dreb_pct - o.dreb_pct|)
    (h2 : 1/10000 ≤ |a.oreb_pct - o.OREB_PCT|)
    (h3 : 1/10000 ≤ |a.opp_dreb_pct - o.opp_dreb_pct|)
    (h4 : 1/10000 ≤ |a.opp_oreb_pct - o.OPP_OREB_PCT|) :
    (calculateVariables o a).additional_dreb =
      (o.DREB / o.dreb_pct) * a.dreb_pct - o.DREB ∧
    (calculateVariables o a).additional_oreb =
      (o.OREB / o.OREB_PCT) * a.oreb_pct - o.OREB ∧
    (calculateVariables o a).opp_additional_dreb =
      (o.OPP_DREB / o.opp_dreb_pct) * a.opp_dreb_pct - o.OPP_DREB ∧
    (calculateVariables o a).opp_additional_oreb =
      (o.OPP_OREB / o.OPP_OREB_PCT) * a.opp_oreb_pct - o.OPP_OREB := by
  simp only [calculateVariables, getAdditional]
  exact ⟨if_neg (not_lt.mpr h1), if_neg (not_lt.mpr h2),
    if_neg (not_lt.mpr h3), if_neg (not_lt.mpr h4)⟩

/-- Witness for C2 at the sample inputs, where each of the four rebound
percentages is moved away from baseline by at least the epsilon. -/
theorem additional_rebounds_ratio_formula_witness :
    (calculateVariables sampleMetrics sampleAdjusted).additional_dreb =
      (sampleMetrics.DREB / sampleMetrics.dreb_pct) * sampleAdjusted.dreb_pct -
        sampleMetrics.DREB ∧
    (calculateVariables sampleMetrics sampleAdjusted).additional_oreb =
      (sampleMetrics.OREB / sampleMetrics.OREB_PCT) * sampleAdjusted.oreb_pct -
        sampleMetrics.OREB ∧
    (calculateVariables sampleMetrics sampleAdjusted).opp_additional_dreb =
      (sampleMetrics.OPP_DREB / sampleMetrics.opp_dreb_pct) * sampleAdjusted.opp_dreb_pct -
        sampleMetrics.OPP_DREB ∧
    (calculateVariables sampleMetrics sampleAdjusted).opp_additional_oreb =
      (sampleMetrics.OPP_OREB / sampleMetrics.OPP_OREB_PCT) * sampleAdjusted.opp_oreb_pct -
        sampleMetrics.OPP_OREB := by
  refine additional_rebounds_ratio_formula sampleMetrics sampleAdjusted ?_ ?_ ?_ ?_ <;>
    rw [le_abs] <;> norm_num [sampleMetrics, sampleAdjusted]

/-- The fields of a parsed server-sent event that `simulateSeasonsStream`
inspects (`data.type`, `data.season`, `data.games`, `data.statistics`,
`data.message`); each is `Option` because the JSON payload may omit it. -/
structure StreamEvent where
  type : Option String
  season : Option Int
  games : Option (List GameData)
  statistics : Option SimulationStatistics
  message : Option String
deriving DecidableEq

/-- One callback invocation made by `simulateSeasonsStream`:
`onSeasonUpdate(data)`, `onStatsUpdate(data.statistics)`, `onComplete()`
or `onError(...)`. -/
inductive CallbackCall where
  | seasonUpdate (data : StreamEvent)
  | statsUpdate (statistics : Option SimulationStatistics)
  | complete
  | error
deriving DecidableEq

/-- JavaScript truthiness of the numeric field `data.season`: an absent
field is `undefined` (falsy) and the number 0 is falsy. -/
def truthyNum : Option Int → Bool
  | some n => n != 0
  | none => false

/-- JavaScript truthiness of the array field `data.games`: an absent
field is falsy and every array (even an empty one) is truthy. -/
def truthyArr : Option (List GameData) → Bool
  | some _ => true
  | none => false

/-- Embeds the event dispatch of `simulateSeasonsStream`'s parse branch:
`if (data.type === 'final_statistics') { onStatsUpdate(data.statistics);
onComplete(); } else if (data.type === 'cancelled') { onComplete(); }
else if (data.season && data.games) { onSeasonUpdate(data); }`,
returning the list of callback invocations in order. -/
def processEvent (data : StreamEvent) : List CallbackCall :=
  if data.type = some "final_statistics" then
    [CallbackCall.statsUpdate data.statistics, CallbackCall.complete]
  else if data.type = some "cancelled" then
    [CallbackCall.complete]
  else if truthyNum data.season && truthyArr data.games then
    [CallbackCall.seasonUpdate data]
  else []

/-- Concatenation of the per-element outputs, modelling the appended
effects of iterating `for (const line of lines)` / the reader loop. -/
def concatMap {α β : Type} (f : α → List β) : List α → List β
  | [] => []
  | x :: xs => f x ++ concatMap f xs

/-- The callback invocations produced by a sequence of parsed events. -/
def processEvents (events : List StreamEvent) : List CallbackCall :=
  concatMap processEvent events

/-- Embeds the per-line handling of `simulateSeasonsStream`: a line is
considered only when it starts with `'data: '`; the remainder is then
JSON-parsed (`parse` abstracts `JSON.parse`, returning `none` when the
source would throw, in which case the `catch` swallows the error and no
callback runs for that line). -/
def processLine (parse : String → Option StreamEvent) (line : String) :
    List CallbackCall :=
  if line.startsWith "data: " then
    match parse (line.drop 6) with
    | some data => processEvent data
    | none => []
  else []

/-- The callback invocations produced by a list of lines. -/
def processLines (parse : String → Option StreamEvent) (lines : List String) :
    List CallbackCall :=
  concatMap (processLine parse) lines

/-- Embeds the per-chunk handling: `const lines = chunk.split('\n');
for (const line of lines) ...`. -/
def processChunk (parse : String → Option StreamEvent) (chunk : String) :
    List CallbackCall :=
  processLines parse (chunk.split (fun c => c = '\n'))

/-- Embeds the reader loop over all decoded chunks of the response body. -/
def processChunks (parse : String → Option StreamEvent) (chunks : List String) :
    List CallbackCall :=
  concatMap (processChunk parse) chunks

/-- The observable outcome of the `fetch` call in `simulateSeasonsStream`:
either the fetch itself throws, or a response arrives with an `ok` flag,
a possibly-missing body, and a list of decoded chunks. -/
inductive FetchResult where
  | fetchFail
  | response (ok : Bool) (hasBody : Bool) (chunks : List String)

/-- Embeds `simulateSeasonsStream` as a whole: a thrown fetch, a non-ok
HTTP status (`throw new Error(...)` caught by the outer `catch`) or a
missing body each invoke `onError` once; otherwise the reader loop
processes every chunk. -/
def simulateSeasonsStream (parse : String → Option StreamEvent) :
    FetchResult → List CallbackCall
  | FetchResult.fetchFail => [CallbackCall.error]
  | FetchResult.response ok hasBody chunks =>
    if !ok then [CallbackCall.error]
    else if !hasBody then [CallbackCall.error]
    else processChunks parse chunks

/-- An event handled by the season-data branch of the dispatch: its type
matches neither terminal marker and both `data.season` and `data.games`
are truthy. -/
def isSeasonEvent (e : StreamEvent) : Prop :=
  e.type ≠ some "final_statistics" ∧ e.type ≠ some "cancelled" ∧
  truthyNum e.season = true ∧ truthyArr e.games = true

theorem processEvent_of_isSeasonEvent {e : StreamEvent} (h : isSeasonEvent e) :
    processEvent e = [CallbackCall.seasonUpdate e] := by
  obtain ⟨h1, h2, h3, h4⟩ := h
  simp [processEvent, h1, h2, h3, h4]

theorem processEvents_of_seasonEvents {es : List StreamEvent}
    (h : ∀ e ∈ es, isSeasonEvent e) :
    processEvents es = es.map CallbackCall.seasonUpdate := by
  induction es with
  | nil => rfl
  | cons e es ih =>
    have he := h e (List.mem_cons_self e es)
    have hes : ∀ x ∈ es, isSeasonEvent x := fun x hx => h x (List.mem_cons_of_mem e hx)
    simp only [processEvents, concatMap, processEvent_of_isSeasonEvent he, List.map_cons]
    simpa [processEvents] using ih hes

theorem concatMap_append {α β : Type} (f : α → List β) (l1 l2 : List α) :
    concatMap f (l1 ++ l2) = concatMap f l1 ++ concatMap f l2 := by
  induction l1 with
  | nil => rfl
  | cons x xs ih => simp [concatMap, ih]

/-- A concrete game record used to build sample events. -/
def sampleGame : GameData where
  game := 1
  expected_wins := 1/2
  team_score := 100
  opp_score := 90
  is_win := true

/-- A concrete season-data event: no `type`, truthy `season` and `games`. -/
def sampleSeasonEvent : StreamEvent where
  type := none
  season := some 1
  games := some [sampleGame]
  statistics := none
  message := none

/-- A concrete cancellation event as emitted by the backend. -/
def sampleCancelledEvent : StreamEvent where
  type := some "cancelled"
  season := none
  games := none
  statistics := none
  message := some "Simulation cancelled"

/-- A concrete final-statistics event. -/
def finalStatisticsEvent : StreamEvent where
  type := some "final_statistics"
  season := none
  games := none
  statistics := some ⟨41, 5, 2, 30, 50⟩
  message := none

/-- An event whose `season` and `games` fields are both present, but
whose `season` value is the falsy number 0. -/
def zeroSeasonEvent : StreamEvent where
  type := none
  season := some 0
  games := some []
  statistics := none
  message := none

/-- C3: an event of type `'cancelled'` invokes `onComplete` and neither
`onStatsUpdate` nor `onError`; a stream of season-data events followed by
a cancelled event invokes `onSeasonUpdate` exactly once per season event
and ends with the single `onComplete` — cancellation terminates without
an error callback. -/
theorem cancelled_event_completes (es : List StreamEvent) (c : StreamEvent)
    (hc : c.type = some "cancelled") (hes : ∀ e ∈ es, isSeasonEvent e) :
    processEvent c = [CallbackCall.complete] ∧
    processEvents (es ++ [c]) =
      es.map CallbackCall.seasonUpdate ++ [CallbackCall.complete] := by
  have hpc : processEvent c = [CallbackCall.complete] := by
    unfold processEvent
    rw [hc, if_neg (by decide), if_pos rfl]
  refine ⟨hpc, ?_⟩
  rw [processEvents, concatMap_append,
    show concatMap processEvent es = processEvents es from rfl,
    processEvents_of_seasonEvents hes]
  simp [concatMap, hpc]

/-- Witness for C3: one sample season event followed by a cancelled event
yields exactly one `onSeasonUpdate` call and then `onComplete`. -/
theorem cancelled_event_completes_witness :
    processEvents [sampleSeasonEvent, sampleCancelledEvent] =
      [CallbackCall.seasonUpdate sampleSeasonEvent, CallbackCall.complete] :=
  (cancelled_event_completes [sampleSeasonEvent] sampleCancelledEvent rfl
    (by
      intro e he
      rw [List.mem_singleton] at he
      subst he
      exact ⟨by decide, by decide, rfl, rfl⟩)).2

/-- C4 counterexample: an event whose `season` and `games` fields are
both present, with `season` equal to 0, invokes no callback at all —
`data.season && data.games` tests JavaScript truthiness, not field
presence — so a stream containing it before `final_statistics` produces
zero `onSeasonUpdate` calls despite an event carrying both fields. -/
theorem season_field_presence_counterexample :
    zeroSeasonEvent.season.isSome = true ∧ zeroSeasonEvent.games.isSome = true ∧
    processEvent zeroSeasonEvent = [] ∧
    processEvents [zeroSeasonEvent, finalStatisticsEvent] =
      [CallbackCall.statsUpdate finalStatisticsEvent.statistics,
       CallbackCall.complete] :=
  ⟨rfl, rfl, rfl, rfl⟩

/-- C4 amended: on a normally completed stream — events whose `season`
and `games` fields are both truthy (present, with a nonzero season) and
whose type is neither terminal marker, followed by a `'final_statistics'`
event — the consumer invokes `onSeasonUpdate` once per season event, then
`onStatsUpdate` with the statistics payload, then `onComplete`. -/
theorem final_statistics_stream_trace (es : List StreamEvent) (f : StreamEvent)
    (hf : f.type = some "final_statistics") (hes : ∀ e ∈ es, isSeasonEvent e) :
    processEvents (es ++ [f]) =
      es.map CallbackCall.seasonUpdate ++
        [CallbackCall.statsUpdate f.statistics, CallbackCall.complete] := by
  have hpf : processEvent f =
      [CallbackCall.statsUpdate f.statistics, CallbackCall.complete] := by
    unfold processEvent
    rw [hf, if_pos rfl]
  rw [processEvents, concatMap_append,
    show concatMap processEvent es = processEvents es from rfl,
    processEvents_of_seasonEvents hes]
  simp [concatMap, hpf]

/-- Witness for the amended C4: one sample season event followed by the
final-statistics event yields `onSeasonUpdate`, `onStatsUpdate`,
`onComplete` in that order. -/
theorem final_statistics_stream_trace_witness :
    processEvents [sampleSeasonEvent, finalStatisticsEvent] =
      [CallbackCall.seasonUpdate sampleSeasonEvent,
       CallbackCall.statsUpdate finalStatisticsEvent.statistics,
       CallbackCall.complete] :=
  final_statistics_stream_trace [sampleSeasonEvent] finalStatisticsEvent rfl
    (by
      intro e he
      rw [List.mem_singleton] at he
      subst he
      exact ⟨by decide, by decide, rfl, rfl⟩)

/-- C5: a fetch failure or a non-ok HTTP response makes
`simulateSeasonsStream` invoke `onError` exactly once and none of
`onSeasonUpdate`, `onStatsUpdate` or `onComplete`: the run aborts with
zero season records emitted. -/
theorem preStream_failure_single_error (parse : String → Option StreamEvent)
    (hasBody : Bool) (chunks : List String) :
    simulateSeasonsStream parse FetchResult.fetchFail = [CallbackCall.error] ∧
    simulateSeasonsStream parse (FetchResult.response false hasBody chunks) =
      [CallbackCall.error] :=
  ⟨rfl, rfl⟩

/-- C9: a line that does not start with `'data: '`, or whose remainder
fails to JSON-parse, contributes no callback invocation and does not
abort processing — deleting it from the line sequence leaves the trace
unchanged — and processing of chunks and of lines is compositional, so
the well-formed events of later lines and later chunks are dispatched
exactly as they would be on their own. -/
theorem malformed_line_never_aborts (parse : String → Option StreamEvent)
    (ls1 : List String) (l : String) (ls2 : List String)
    (hl : l.startsWith "data: " = false ∨ parse (l.drop 6) = none) :
    processLines parse (ls1 ++ l :: ls2) = processLines parse (ls1 ++ ls2) ∧
    (∀ cs1 cs2 : List String,
      processChunks parse (cs1 ++ cs2) =
        processChunks parse cs1 ++ processChunks parse cs2) ∧
    (∀ lines1 lines2 : List String,
      processLines parse (lines1 ++ lines2) =
        processLines parse lines1 ++ processLines parse lines2) := by
  have hskip : processLine parse l = [] := by
    rcases hl with h | h
    · simp [processLine, h]
    · cases hsw : l.startsWith "data: " <;> simp [processLine, h, hsw]
  refine ⟨?_, fun cs1 cs2 => concatMap_append _ cs1 cs2,
    fun lines1 lines2 => concatMap_append _ lines1 lines2⟩
  simp only [processLines, concatMap_append, concatMap, hskip, List.nil_append]

/-- The constant failing parse used to instantiate C9. -/
def alwaysNoneParse : String → Option StreamEvent := fun _ => none

/-- Witness for C9: a `'data: '` line whose payload fails to parse
contributes nothing to the trace. -/
theorem malformed_line_never_aborts_witness :
    processLines alwaysNoneParse ["data: notjson"] = processLines alwaysNoneParse [] :=
  (malformed_line_never_aborts alwaysNoneParse [] "data: notjson" [] (Or.inr rfl)).1

/-- The observable outcome of the axios GET in `healthCheck`: either the
request throws (network failure or non-2xx status) or a response arrives
whose body's `status` field is modelled as an optional string. -/
inductive HealthResponse where
  | failure
  | success (status : Option String)

/-- Embeds `healthCheck`: `try { const response = await api.get('/health');
return response.data.status === 'healthy'; } catch (error) { return
false; }`. -/
def healthCheck : HealthResponse → Bool
  | HealthResponse.failure => false
  | HealthResponse.success status => status == some "healthy"

/-- C10: `healthCheck` is total — it returns `true` exactly when the
request succeeds and the body's `status` field equals `'healthy'`, and
returns `false` for every other response value and for a failed
request. -/
theorem healthCheck_true_iff (r : HealthResponse) :
    (healthCheck r = true ↔ r = HealthResponse.success (some "healthy")) ∧
    healthCheck HealthResponse.failure = false := by
  refine ⟨?_, rfl⟩
  cases r with
  | failure => simp [healthCheck]
  | success status => simp [healthCheck]

/-- Witness for C10 at a healthy response. -/
theorem healthCheck_true_iff_witness :
    healthCheck (HealthResponse.success (some "healthy")) = true :=
  ((healthCheck_true_iff (HealthResponse.success (some "healthy"))).1).mpr rfl

/-- C6 counterexample: the `SimulationStatistics` interface does not
declare a `seasons_completed` field, so it does not carry all six
`RunningStatistics` components. -/
theorem simulationStatistics_missing_seasons_completed :
    ¬ "seasons_completed" ∈ simulationStatisticsFields := by decide

/-- C6 amended: the frontend `SimulationStatistics` type declares a field
for five of the six `RunningStatistics` components — average expected
wins, standard deviation, 95% CI half-width, min wins and max wins — and
is fully determined by those five, while the count of seasons completed
is absent from the type and appears only in the `App.handleSimulate`
fallback statistics object. -/
theorem simulationStatistics_five_of_six_fields :
    "average_expected_wins" ∈ simulationStatisticsFields ∧
    "standard_deviation" ∈ simulationStatisticsFields ∧
    "confidence_interval_95" ∈ simulationStatisticsFields ∧
    "min_wins" ∈ simulationStatisticsFields ∧
    "max_wins" ∈ simulationStatisticsFields ∧
    "seasons_completed" ∉ simulationStatisticsFields ∧
    "seasons_completed" ∈ fallbackStatisticsKeys ∧
    ∀ s t : SimulationStatistics,
      s.average_expected_wins = t.average_expected_wins →
      s.standard_deviation = t.standard_deviation →
      s.confidence_interval_95 = t.confidence_interval_95 →
      s.min_wins = t.min_wins →
      s.max_wins = t.max_wins → s = t := by
  refine ⟨by decide, by decide, by decide, by decide, by decide, by decide, by decide, ?_⟩
  intro s t h1 h2 h3 h4 h5
  cases s
  cases t
  simp_all

/-- Witness for the amended C6: two statistics records agreeing on the
five declared fields are equal. -/
theorem simulationStatistics_five_of_six_fields_witness :
    (⟨41, 5, 2, 30, 50⟩ : SimulationStatistics) = ⟨41, 5, 2, 30, 50⟩ :=
  simulationStatistics_five_of_six_fields.2.2.2.2.2.2.2
    ⟨41, 5, 2, 30, 50⟩ ⟨41, 5, 2, 30, 50⟩ rfl rfl rfl rfl rfl

/-- JavaScript object assignment `obj[key] = value` on an association
list: overwrite the entry for the key when present, otherwise append a
new entry. -/
def setKey {κ α : Type} [DecidableEq κ] : List (κ × α) → κ → α → List (κ × α)
  | [], k, v => [(k, v)]
  | (k', v') :: rest, k, v =>
    if k' = k then (k, v) :: rest else (k', v') :: setKey rest k v

/-- JavaScript object read `obj[key]`: the stored value, or `undefined`
(modelled `none`) when the key is absent. -/
def getVal {κ α : Type} [DecidableEq κ] : List (κ × α) → κ → Option α
  | [], _ => none
  | (k', v') :: rest, k => if k' = k then some v' else getVal rest k

theorem getVal_setKey_self {κ α : Type} [DecidableEq κ]
    (l : List (κ × α)) (k : κ) (v : α) :
    getVal (setKey l k v) k = some v := by
  induction l with
  | nil => simp [setKey, getVal]
  | cons p rest ih =>
    obtain ⟨k', v'⟩ := p
    by_cases h : k' = k <;> simp [setKey, getVal, h, ih]

theorem getVal_setKey_ne {κ α : Type} [DecidableEq κ]
    (l : List (κ × α)) (k m : κ) (v : α) (h : k ≠ m) :
    getVal (setKey l k v) m = getVal l m := by
  induction l with
  | nil => simp [setKey, getVal, h]
  | cons p rest ih =>
    obtain ⟨k', v'⟩ := p
    by_cases hk : k' = k
    · subst hk
      simp [setKey, getVal, h]
    · simp [setKey, getVal, hk, ih]

/-- Embeds the body of the `seasons.forEach` callback inside
`SimulationChart`'s per-game-number map: `find` the first game record of
the season whose `game` equals the game number and, when one exists,
assign its `expected_wins` under the season's chart key (keyed here by
the season index standing for the string `Season ${season.season}`). -/
def chartStep (gameNum : Int) (acc : List (Int × ℚ)) (s : SeasonData) :
    List (Int × ℚ) :=
  match s.games.find? (fun g => g.game == gameNum) with
  | some gameData => setKey acc s.season gameData.expected_wins
  | none => acc

/-- One Recharts data point built by `SimulationChart`: the fixed `game`
key plus the dynamic per-season entries. -/
structure ChartPoint where
  game : Int
  seasonEntries : List (Int × ℚ)
deriving DecidableEq

/-- Embeds the body of the `gameNumbers.map` callback of
`SimulationChart`: start from `{ game: gameNum }` and run the
`seasons.forEach` assignment loop. -/
def buildPoint (seasons : List SeasonData) (gameNum : Int) : ChartPoint where
  game := gameNum
  seasonEntries := seasons.foldl (chartStep gameNum) []

/-- Embeds `chartData` of `SimulationChart`:
`Array.from({length: 82}, (_, i) => i + 1)` mapped over `buildPoint`. -/
def chartData (seasons : List SeasonData) : List ChartPoint :=
  (List.range 82).map (fun i => buildPoint seasons (Int.ofNat i + 1))

theorem getVal_chartStep_isSome (gameNum : Int) (acc : List (Int × ℚ))
    (sd : SeasonData) (s : Int) :
    (getVal (chartStep gameNum acc sd) s).isSome = true ↔
      (getVal acc s).isSome = true ∨
        (sd.season = s ∧ ∃ gd ∈ sd.games, gd.game = gameNum) := by
  unfold chartStep
  split
  next gd hfind =>
    have hmem := List.mem_of_find?_eq_some hfind
    have hp : gd.game = gameNum := by simpa using List.find?_some hfind
    by_cases hs : sd.season = s
    · subst hs
      rw [getVal_setKey_self]
      simp only [Option.isSome_some]
      exact ⟨fun _ => Or.inr ⟨by simp, gd, hmem, hp⟩, fun _ => by simp⟩
    · rw [getVal_setKey_ne _ _ _ _ hs]
      simp [hs]
  next hfind =>
    rw [List.find?_eq_none] at hfind
    constructor
    · exact Or.inl
    · rintro (h | ⟨_, gd, hmem, hg⟩)
      · exact h
      · exact absurd hg (by simpa using hfind gd hmem)

theorem getVal_chartFold_isSome (gameNum : Int) (seasons : List SeasonData)
    (acc : List (Int × ℚ)) (s : Int) :
    (getVal (seasons.foldl (chartStep gameNum) acc) s).isSome = true ↔
      (getVal acc s).isSome = true ∨
        ∃ sd ∈ seasons, sd.season = s ∧ ∃ gd ∈ sd.games, gd.game = gameNum := by
  induction seasons generalizing acc with
  | nil => simp
  | cons hd rest ih =>
    rw [List.foldl_cons, ih, getVal_chartStep_isSome]
    constructor
    · rintro ((h | ⟨hs, hgd⟩) | ⟨sd, hmem, hsd⟩)
      · exact Or.inl h
      · exact Or.inr ⟨hd, List.mem_cons_self hd rest, hs, hgd⟩
      · exact Or.inr ⟨sd, List.mem_cons_of_mem hd hmem, hsd⟩
    · rintro (h | ⟨sd, hmem, hsd⟩)
      · exact Or.inl (Or.inl h)
      · rcases List.mem_cons.mp hmem with rfl | hmem'
        · exact Or.inl (Or.inr hsd)
        · exact Or.inr ⟨sd, hmem', hsd⟩

theorem getVal_chartFold_preserved (gameNum : Int) (s : Int) :
    ∀ (seasons : List SeasonData) (acc : List (Int × ℚ)),
      (∀ x ∈ seasons, x.season ≠ s) →
      getVal (seasons.foldl (chartStep gameNum) acc) s = getVal acc s := by
  intro seasons
  induction seasons with
  | nil => intro acc _; rfl
  | cons hd rest ih =>
    intro acc h
    rw [List.foldl_cons,
      ih (chartStep gameNum acc hd) (fun x hx => h x (List.mem_cons_of_mem hd hx))]
    unfold chartStep
    split
    next gd hfind =>
      exact getVal_setKey_ne acc hd.season s gd.expected_wins
        (h hd (List.mem_cons_self hd rest))
    next hfind => rfl

theorem getVal_chartFold_value (gameNum : Int) (sd : SeasonData) (gd : GameData)
    (hfind : sd.games.find? (fun g => g.game == gameNum) = some gd) :
    ∀ (seasons : List SeasonData) (acc : List (Int × ℚ)),
      seasons.Pairwise (fun x y => x.season ≠ y.season) → sd ∈ seasons →
      getVal (seasons.foldl (chartStep gameNum) acc) sd.season =
        some gd.expected_wins := by
  intro seasons
  induction seasons with
  | nil => intro acc _ hmem; exact absurd hmem (List.not_mem_nil sd)
  | cons hd rest ih =>
    intro acc hdist hmem
    rw [List.foldl_cons]
    rcases List.mem_cons.mp hmem with rfl | hmem'
    · have hstep : chartStep gameNum acc sd = setKey acc sd.season gd.expected_wins := by
        simp [chartStep, hfind]
      rw [hstep,
        getVal_chartFold_preserved gameNum sd.season rest _
          (fun x hx he => (List.pairwise_cons.mp hdist).1 x hx he.symm)]
      exact getVal_setKey_self acc sd.season gd.expected_wins
    · exact ih (chartStep gameNum acc hd) (List.pairwise_cons.mp hdist).2 hmem'

/-- C7: the chart transform produces exactly 82 data points; the point at
index `i` is the one built for game number `i + 1` (games 1 through 82 in
increasing order); a point at game number `g` carries an entry for season
index `s` if and only if some input season with index `s` contains a game
record whose `game` field equals `g`; and when season indices are
distinct, the entry's value is the `expected_wins` of the first such game
record of that season. -/
theorem chartData_points (seasons : List SeasonData) :
    (chartData seasons).length = 82 ∧
    (∀ i (h : i < (chartData seasons).length),
      (chartData seasons).get ⟨i, h⟩ = buildPoint seasons (Int.ofNat i + 1)) ∧
    (∀ i (h : i < (chartData seasons).length),
      ((chartData seasons).get ⟨i, h⟩).game = Int.ofNat i + 1) ∧
    (∀ gameNum s : Int,
      (getVal (buildPoint seasons gameNum).seasonEntries s).isSome = true ↔
        ∃ sd ∈ seasons, sd.season = s ∧ ∃ gd ∈ sd.games, gd.game = gameNum) ∧
    (∀ (gameNum : Int) (sd : SeasonData) (gd : GameData),
      seasons.Pairwise (fun x y => x.season ≠ y.season) → sd ∈ seasons →
      sd.games.find? (fun g => g.game == gameNum) = some gd →
      getVal (buildPoint seasons gameNum).seasonEntries sd.season =
        some gd.expected_wins) := by
  refine ⟨by simp [chartData], ?_, ?_, ?_, ?_⟩
  · intro i h
    simp [chartData]
  · intro i h
    simp [chartData, buildPoint]
  · intro gameNum s
    rw [show (buildPoint seasons gameNum).seasonEntries =
        seasons.foldl (chartStep gameNum) [] from rfl,
      getVal_chartFold_isSome]
    simp [getVal]
  · intro gameNum sd gd hdist hmem hfind
    exact getVal_chartFold_value gameNum sd gd hfind seasons [] hdist hmem

/-- A concrete season for instantiating the chart theorems. -/
def sampleSeason : SeasonData where
  season := 1
  games := [sampleGame]
  final_expected_wins := 41
  total_wins := 45
  win_percentage := 45/82

/-- Witness for C7: the point for game number 1 carries season 1's
expected-wins value. -/
theorem chartData_points_witness :
    getVal (buildPoint [sampleSeason] 1).seasonEntries 1 =
      some sampleGame.expected_wins :=
  (chartData_points [sampleSeason]).2.2.2.2 1 sampleSeason sampleGame
    (List.pairwise_singleton _ _) (List.mem_singleton.mpr rfl) rfl

/-- Embeds `adjustMetric` of `SimulationControls`:
`setAdjustedMetrics(prev => ({ ...prev, [metric]:
Math.max(0, Math.min(1, (prev[metric] || 0) + delta)) }))`, the absent
key reading as 0. -/
def adjustMetric (prev : List (String × ℚ)) (metric : String) (delta : ℚ) :
    List (String × ℚ) :=
  setKey prev metric (max 0 (min 1 ((getVal prev metric).getD 0 + delta)))

/-- A finite sequence of `adjustMetric` clicks `(metric, delta)` applied
in order to the state. -/
def applyAdjustments (st : List (String × ℚ)) (calls : List (String × ℚ)) :
    List (String × ℚ) :=
  calls.foldl (fun acc c => adjustMetric acc c.1 c.2) st

theorem getVal_adjustMetric_self (st : List (String × ℚ)) (m : String) (d : ℚ) :
    getVal (adjustMetric st m d) m =
      some (max 0 (min 1 ((getVal st m).getD 0 + d))) :=
  getVal_setKey_self st m _

theorem getVal_adjustMetric_ne (st : List (String × ℚ)) (k m : String) (d : ℚ)
    (h : k ≠ m) : getVal (adjustMetric st k d) m = getVal st m :=
  getVal_setKey_ne st k m _ h

theorem getVal_applyAdjustments_preserved (m : String) :
    ∀ (calls : List (String × ℚ)) (st : List (String × ℚ)),
      (∀ c ∈ calls, c.1 ≠ m) →
      getVal (applyAdjustments st calls) m = getVal st m := by
  intro calls
  induction calls with
  | nil => intro st _; rfl
  | cons c cs ih =>
    intro st h
    rw [show applyAdjustments st (c :: cs) =
        applyAdjustments (adjustMetric st c.1 c.2) cs from rfl,
      ih _ (fun x hx => h x (List.mem_cons_of_mem c hx)),
      getVal_adjustMetric_ne st c.1 m c.2 (h c (List.mem_cons_self c cs))]

theorem applyAdjustments_mem_unit (m : String) :
    ∀ (calls : List (String × ℚ)) (st : List (String × ℚ)),
      (∃ d, (m, d) ∈ calls) →
      ∃ v, getVal (applyAdjustments st calls) m = some v ∧ 0 ≤ v ∧ v ≤ 1 := by
  intro calls
  induction calls with
  | nil =>
    rintro st ⟨d, hd⟩
    exact absurd hd (List.not_mem_nil (m, d))
  | cons c cs ih =>
    rintro st ⟨d, hd⟩
    by_cases hcs : ∃ d', (m, d') ∈ cs
    · exact ih (adjustMetric st c.1 c.2) hcs
    · rcases List.mem_cons.mp hd with rfl | h
      · rw [show applyAdjustments st ((m, d) :: cs) =
            applyAdjustments (adjustMetric st m d) cs from rfl,
          getVal_applyAdjustments_preserved m cs _
            (fun x hx hxm => hcs ⟨x.2, by rw [← hxm]; simpa using hx⟩)]
        refine ⟨_, getVal_adjustMetric_self st m d, le_max_left 0 _, ?_⟩
        exact max_le (by norm_num) (min_le_left 1 _)
      · exact absurd ⟨d, h⟩ hcs

/-- C8: each `adjustMetric` application stores, under the adjusted key,
the sum of the previous value (0 when absent) and the delta clamped to
the interval [0, 1]; consequently, after any finite sequence of
`adjustMetric` calls with arbitrary deltas, every metric that was
adjusted at least once holds a value in [0, 1]. -/
theorem adjustMetric_clamps_to_unit (st : List (String × ℚ))
    (calls : List (String × ℚ)) (m : String) (hm : ∃ d, (m, d) ∈ calls) :
    (∀ (prev : List (String × ℚ)) (metric : String) (delta : ℚ),
      getVal (adjustMetric prev metric delta) metric =
        some (max 0 (min 1 ((getVal prev metric).getD 0 + delta)))) ∧
    ∃ v, getVal (applyAdjustments st calls) m = some v ∧ 0 ≤ v ∧ v ≤ 1 :=
  ⟨fun prev metric delta => getVal_adjustMetric_self prev metric delta,
    applyAdjustments_mem_unit m calls st hm⟩

/-- Witness for C8: pushing `fg2_pct` up by 3/2 from an empty state
clamps it into [0, 1]. -/
theorem adjustMetric_clamps_to_unit_witness :
    ∃ v, getVal (applyAdjustments [] [("fg2_pct", 3/2)]) "fg2_pct" = some v ∧
      0 ≤ v ∧ v ≤ 1 :=
  (adjustMetric_clamps_to_unit [] [("fg2_pct", 3/2)] "fg2_pct"
    ⟨3/2, List.mem_singleton.mpr rfl⟩).2
